import Mathlib

/-!
Verification development for the MT5 multi-symbol trading engine.

The Python sources are shallowly embedded here:
* `combinedSignal` embeds `CombinedStrategy.signal`
  (mt5_trading/domain/strategies/combined_strategy.py);
* the volatility analyzer (mt5_trading/domain/volatility_analyzer.py) is
  embedded by `calculate_atr`, `calculate_volatility_metrics`,
  `rank_symbols_by_volatility`, `select_top_volatile_symbols`;
* the risk manager (mt5_trading/domain/risk_manager.py) by
  `calculate_position_size` and `check_risk_limits`;
* the orchestrator `MultiSymbolRobot.trade_symbol`
  (mt5_trading/robot/multi_symbol_robot.py) by `trade_symbol`;
* `select_volatile_symbols` (main_live.py) by `select_volatile_symbols`.

Machine floats of the source are idealized as exact rationals; exceptions of
fallible collaborators (MetaTrader queries) are `Option` results; Python
exceptions that a `try` block converts into a default return value become
explicit guard branches, marked in the definitions.
-/

namespace MT5Trading

/-- The signal enumeration of mt5_trading/domain/signal.py. -/
inductive Signal
  | BUY
  | SELL
  | NONE
deriving DecidableEq, Repr

/-- Embeds `CombinedStrategy.signal` (combined_strategy.py lines 50-100),
projected to the `Signal` component (the symbol component is a passthrough of
`self.data.get_symbol()`).  Each constituent strategy outcome is an
`Option Signal`: `none` models a constituent whose `signal()` raised and was
skipped by the `except: continue` arm.  The two source guards
(`len(self.strategies) == 0` and `len(signals) == 0`) both return `NONE` and
collapse to the single `signals.length = 0` test here, because no strategies
means no outcomes.  The unused source variable `none_count` is omitted. -/
def combinedSignal (require_all : Bool) (outcomes : List (Option Signal)) : Signal :=
  let signals := outcomes.filterMap id
  if signals.length = 0 then Signal.NONE
  else
    let buy_count := (signals.filter (fun s => decide (s = Signal.BUY))).length
    let sell_count := (signals.filter (fun s => decide (s = Signal.SELL))).length
    if require_all then
      if buy_count = signals.length then Signal.BUY
      else if sell_count = signals.length then Signal.SELL
      else Signal.NONE
    else
      let majority_threshold := (signals.length + 1) / 2
      if majority_threshold ≤ buy_count then Signal.BUY
      else if majority_threshold ≤ sell_count then Signal.SELL
      else Signal.NONE

/-- Number of constituents whose `signal()` call did not raise
(`len(signals)` in the source). -/
def nResults (outcomes : List (Option Signal)) : ℕ :=
  (outcomes.filterMap id).length

/-- `sum(1 for s in signals if s == sg)` of the source. -/
def sigCount (sg : Signal) (outcomes : List (Option Signal)) : ℕ :=
  ((outcomes.filterMap id).filter (fun s => decide (s = sg))).length

/-- A price tick as returned by `mt5.symbol_info_tick`. -/
structure Tick where
  bid : ℚ
  ask : ℚ
deriving DecidableEq, Repr

/-- One OHLC bar of the series returned by `mt5.copy_rates_from_pos`
(only the fields the embedded code reads). -/
structure Bar where
  high : ℚ
  low : ℚ
  close : ℚ
deriving DecidableEq, Repr

/-- Symbol metadata from `mt5.symbol_info` (the fields the embedded code
reads). -/
structure SymbolInfo where
  digits : ℕ
  trade_tick_size : ℚ
  trade_tick_value : ℚ
  trade_contract_size : ℚ
  volume_min : ℚ
  volume_max : ℚ
  volume_step : ℚ
deriving DecidableEq, Repr

/-- Account data from `mt5.account_info`. -/
structure AccountInfo where
  balance : ℚ
  equity : ℚ
deriving DecidableEq, Repr

/-- One open position from `mt5.positions_get` (the fields the embedded code
reads). -/
structure Position where
  symbol : String
  volume : ℚ
  profit : ℚ
deriving DecidableEq, Repr

/-- The MetaTrader terminal state observed through the `mt5` module during one
call: each query's response.  `none` models both a `None` response and a query
that raised (the source catches either and degrades to a default). -/
structure MarketEnv where
  accountInfo : Option AccountInfo
  selectOk : String → Bool
  symbolInfo : String → Option SymbolInfo
  tick : String → Option Tick
  rates : String → Option (List Bar)
  positions : Option (List Position)

/-- `np.mean` of a list (the embedded code only applies it to nonempty
lists). -/
def listMean (l : List ℚ) : ℚ :=
  l.sum / (l.length : ℚ)

/-- `.max()` of a nonempty series. -/
def listMax : List ℚ → ℚ
  | [] => 0
  | x :: xs => xs.foldl max x

/-- `.min()` of a nonempty series. -/
def listMin : List ℚ → ℚ
  | [] => 0
  | x :: xs => xs.foldl min x

/-- The True Range list of `VolatilityAnalyzer.calculate_atr`
(volatility_analyzer.py lines 60-67): for each i ≥ 1,
max(high[i]-low[i], |high[i]-close[i-1]|, |low[i]-close[i-1]|). -/
def trueRanges (bars : List Bar) : List ℚ :=
  (bars.zip bars.tail).map (fun pc =>
    max (pc.2.high - pc.2.low) (max |pc.2.high - pc.1.close| |pc.2.low - pc.1.close|))

/-- Embeds `VolatilityAnalyzer.calculate_atr` (volatility_analyzer.py lines
43-82): simple moving average of True Range over `atr_period`, then averaged
again over the last `lookback_period` ATR values (or all of them if fewer). -/
def calculate_atr (atr_period lookback_period : ℕ) (bars : List Bar) : ℚ :=
  if bars.length < atr_period + 1 then 0
  else
    let tr_list := trueRanges bars
    if tr_list.length < atr_period then 0
    else
      let atr_values := (List.range (tr_list.length - atr_period + 1)).map
        (fun i => listMean ((tr_list.drop i).take atr_period))
      if atr_values.length = 0 then 0
      else if lookback_period ≤ atr_values.length then
        listMean (atr_values.drop (atr_values.length - lookback_period))
      else listMean atr_values

/-- The volatility metrics dictionary built by
`VolatilityAnalyzer.calculate_volatility_metrics`. -/
structure VolMetrics where
  symbol : String
  atr : ℚ
  atr_percentage : ℚ
  volatility : ℚ
  price_range : ℚ
  current_price : ℚ
  score : ℚ
deriving DecidableEq, Repr

/-- Embeds `VolatilityAnalyzer.calculate_volatility_metrics`
(volatility_analyzer.py lines 84-142).  `stdAnn` is a parameter standing for
the source subexpression `returns.std() * np.sqrt(252)` (the annualized
standard deviation of the simple returns): its value is irrational-valued and
none of the verified claims depends on it, so the development is parametric in
it and every theorem holds for the true instantiation.  The `returns` list
embeds `df['close'].pct_change().dropna()`; a zero previous close yields an
infinite float in the source and a `0` rational here, which no claim
observes.  `none` is returned exactly on the source's `return None` guards:
symbol not selectable, rates `None` or empty, or fewer than
`atr_period + lookback_period` bars. -/
def calculate_volatility_metrics (stdAnn : List ℚ → ℚ)
    (atr_period lookback_period : ℕ) (env : MarketEnv) (symbol : String) :
    Option VolMetrics :=
  if ¬ env.selectOk symbol then none
  else
    match env.rates symbol with
    | none => none
    | some rs =>
      if rs.length = 0 then none
      else if rs.length < atr_period + lookback_period then none
      else
        let atr := calculate_atr atr_period lookback_period rs
        let closes := rs.map (·.close)
        let returns := (closes.zip closes.tail).map (fun pc => (pc.2 - pc.1) / pc.1)
        let volatility := if 0 < returns.length then stdAnn returns else 0
        let price_range :=
          (listMax (rs.map (·.high)) - listMin (rs.map (·.low))) / listMean closes * 100
        let current_price :=
          match env.tick symbol with
          | some t => (t.bid + t.ask) / 2
          | none => closes.getLastD 0
        let atr_percentage := if 0 < current_price then atr / current_price * 100 else 0
        some {
          symbol := symbol
          atr := atr
          atr_percentage := atr_percentage
          volatility := volatility
          price_range := price_range
          current_price := current_price
          score := atr_percentage * 0.6 + volatility * 0.4
        }

/-- Stable descending insertion by score: `x` is placed before the first
element whose score is ≤ `x.score`. -/
def insertByScore (x : VolMetrics) : List VolMetrics → List VolMetrics
  | [] => [x]
  | y :: ys => if y.score ≤ x.score then x :: y :: ys else y :: insertByScore x ys

/-- Stable descending-by-score sort.  Models the source's
`results.sort(key=lambda x: x['score'], reverse=True)`: Python's sort is
stable also under `reverse=True` (elements with equal keys retain their
original order), and a stable descending reordering of a list is unique, so
this insertion sort is extensionally the same function. -/
def sortByScoreDesc : List VolMetrics → List VolMetrics
  | [] => []
  | x :: xs => insertByScore x (sortByScoreDesc xs)

/-- Embeds `VolatilityAnalyzer.rank_symbols_by_volatility`
(volatility_analyzer.py lines 144-166): collect the metrics of each symbol,
skipping symbols whose metrics are unavailable, then sort by score,
highest first. -/
def rank_symbols_by_volatility (stdAnn : List ℚ → ℚ)
    (atr_period lookback_period : ℕ) (env : MarketEnv) (symbols : List String) :
    List VolMetrics :=
  sortByScoreDesc
    (symbols.filterMap (calculate_volatility_metrics stdAnn atr_period lookback_period env))

/-- Embeds `VolatilityAnalyzer.select_top_volatile_symbols`
(volatility_analyzer.py lines 168-195): filter the ranking by
`score >= min_volatility_threshold`, keep the symbol names, take the first
`max_symbols`. -/
def select_top_volatile_symbols (stdAnn : List ℚ → ℚ)
    (atr_period lookback_period : ℕ) (env : MarketEnv) (symbols : List String)
    (max_symbols : ℕ) (min_volatility_threshold : ℚ) : List String :=
  let ranked := rank_symbols_by_volatility stdAnn atr_period lookback_period env symbols
  let filtered :=
    (ranked.filter (fun r => decide (min_volatility_threshold ≤ r.score))).map (·.symbol)
  filtered.take max_symbols

/-- Embeds `select_volatile_symbols` (main_live.py lines 78-107).  The
`try` block constructs a `VolatilityAnalyzer` (which raises when the terminal
connection fails) and runs the selection; the `except` arm returns
`candidates[:max_symbols]`.  The analyzer argument is `none` exactly when the
construction raised, which is the only exception source in the embedded
block. -/
def select_volatile_symbols (stdAnn : List ℚ → ℚ)
    (atr_period lookback_period : ℕ) (analyzer : Option MarketEnv)
    (min_threshold : ℚ) (candidates : List String) (max_symbols : ℕ) :
    List String :=
  match analyzer with
  | some env =>
    select_top_volatile_symbols stdAnn atr_period lookback_period env
      candidates max_symbols min_threshold
  | none => candidates.take max_symbols

/-- The `RiskManager` configuration (risk_manager.py lines 14-23). -/
structure RiskParams where
  risk_per_symbol : ℚ
  max_total_risk : ℚ
deriving DecidableEq, Repr

/-- Embeds `RiskManager.get_account_balance` (risk_manager.py lines 25-40):
the account balance, or 0.0 when the account query returns `None` or
raises. -/
def get_account_balance (env : MarketEnv) : ℚ :=
  match env.accountInfo with
  | none => 0
  | some a => a.balance

/-- The pip-to-price-difference conversion shared verbatim by
`calculate_position_size` (risk_manager.py lines 108-113) and
`check_risk_limits` (lines 231-234): 1 pip is 10 tick sizes on a 5- or
3-digit instrument, 1 tick size otherwise. -/
def pip_price_diff (info : SymbolInfo) (stop_loss_pips : ℚ) : ℚ :=
  if info.digits = 5 ∨ info.digits = 3 then stop_loss_pips * info.trade_tick_size * 10
  else stop_loss_pips * info.trade_tick_size

/-- Python's builtin `round` on the exact quotient: round half to even. -/
def pythonRound (q : ℚ) : ℤ :=
  if q - ⌊q⌋ < 1 / 2 then ⌊q⌋
  else if (1 : ℚ) / 2 < q - ⌊q⌋ then ⌊q⌋ + 1
  else if ⌊q⌋ % 2 = 0 then ⌊q⌋ else ⌊q⌋ + 1

/-- The amount to risk (risk_manager.py lines 94-97): the explicit
`risk_amount` argument if provided, else `balance * risk_per_symbol`. -/
def risk_amount_of (env : MarketEnv) (rm : RiskParams) (risk_amount_arg : Option ℚ) : ℚ :=
  match risk_amount_arg with
  | some r => r
  | none => get_account_balance env * rm.risk_per_symbol

/-- Embeds `RiskManager.calculate_position_size` (risk_manager.py lines
59-143).  Returns 0.0 on the explicit missing-data guards (symbol not
selectable, symbol info `None`, tick `None`, zero pip-converted price
difference) and also on the three divisions that raise `ZeroDivisionError`
in the source and are converted to 0.0 by its `except` arm: zero
volatility multiplier, zero `price_diff * tick_value / tick_size`
denominator (i.e. zero tick value), and zero lot step.  Otherwise the raw
risk-derived size is rounded to the nearest lot step and clamped into
[volume_min, volume_max].  The source's unused local `current_price` and the
unused `contract_size` read are omitted. -/
def calculate_position_size (env : MarketEnv) (rm : RiskParams) (symbol : String)
    (stop_loss_pips : ℚ) (risk_amount_arg : Option ℚ)
    (volatility_multiplier : ℚ) : ℚ :=
  if ¬ env.selectOk symbol then 0
  else
    match env.symbolInfo symbol with
    | none => 0
    | some info =>
      match env.tick symbol with
      | none => 0
      | some _ =>
        let risk_amount := risk_amount_of env rm risk_amount_arg
        if volatility_multiplier = 0 then 0
        else
          let adjusted_risk := risk_amount / volatility_multiplier
          let tick_size := info.trade_tick_size
          let tick_value := info.trade_tick_value
          let price_diff := pip_price_diff info stop_loss_pips
          if price_diff = 0 then 0
          else if price_diff * tick_value / tick_size = 0 then 0
          else
            let position_size := adjusted_risk / (price_diff * tick_value / tick_size)
            if info.volume_step = 0 then 0
            else
              let rounded :=
                (pythonRound (position_size / info.volume_step) : ℚ) * info.volume_step
              max info.volume_min (min rounded info.volume_max)

/-- The `total_profit` component of `RiskManager.get_total_exposure`
(risk_manager.py lines 145-197), the only component `check_risk_limits`
reads: the sum of floating profit over all open positions, 0.0 when the
positions query returns `None` (an empty list sums to 0.0 as in the
source's explicit empty branch). -/
def totalExposureProfit (env : MarketEnv) : ℚ :=
  match env.positions with
  | none => 0
  | some ps => (ps.map (·.profit)).sum

/-- Embeds `RiskManager.check_risk_limits` (risk_manager.py lines 199-255).
A zero balance is rejected first; missing symbol info or tick is rejected;
a zero tick size raises `ZeroDivisionError` in the source, caught into the
generic error rejection.  `position_risk_percent` and `current_total_risk`
are computed as 0 when the balance is not strictly positive (the source's
`if balance > 0 else 0` conditionals).  The numeric values interpolated into
the source's f-string messages are elided; the zero-balance message is kept
verbatim. -/
def check_risk_limits (env : MarketEnv) (rm : RiskParams) (symbol : String)
    (proposed_position_size stop_loss_pips : ℚ) : Bool × String :=
  let balance := get_account_balance env
  if balance = 0 then (false, "Account balance is zero")
  else
    match env.symbolInfo symbol with
    | none => (false, "Symbol " ++ symbol ++ " not found")
    | some info =>
      match env.tick symbol with
      | none => (false, "Failed to get tick for " ++ symbol)
      | some _ =>
        let tick_size := info.trade_tick_size
        let tick_value := info.trade_tick_value
        let price_diff := pip_price_diff info stop_loss_pips
        if tick_size = 0 then (false, "Error checking risk limits: division by zero")
        else
          let position_risk := |price_diff * tick_value * proposed_position_size / tick_size|
          let position_risk_percent := if 0 < balance then position_risk / balance * 100 else 0
          if rm.risk_per_symbol * 100 < position_risk_percent then
            (false, "Position risk exceeds per-symbol limit")
          else
            let current_total_risk :=
              if 0 < balance then |totalExposureProfit env| / balance * 100 else 0
            let new_total_risk := current_total_risk + position_risk_percent
            if rm.max_total_risk * 100 < new_total_risk then
              (false, "Total risk would exceed maximum limit")
            else (true, "Risk check passed")

/-- The order direction constants `mt5.ORDER_TYPE_BUY` /
`mt5.ORDER_TYPE_SELL`. -/
inductive OrderType
  | buy
  | sell
deriving DecidableEq, Repr

/-- One call the orchestrator makes on the trader collaborator:
`trader.open_position(symbol, volume, order_type, ...)` or
`trader.close_positions(name, symbol, order_type)`. -/
inductive TraderCall
  | openPos (symbol : String) (order_type : OrderType) (volume : ℚ)
  | closePos (symbol : String) (order_type : OrderType)
deriving DecidableEq, Repr

/-- The collaborator responses observed by one `trade_symbol` call.  The
claims about the orchestrator quantify over the outcomes of its helpers, so
the helpers' responses are the environment: `signalResult` is
`strategy.signal()` (`none` = the strategy raised, caught by the outer
`except`); `openCount` the totals from `trader.get_opened_positions` per
direction; `positionSize` the value of `self.calculate_position_size`
(embedded separately as `calculate_position_size` plus the robot's default
fallback); `riskCheck` the value of `self.check_risk_before_trade`, i.e. of
`check_risk_limits`; `openResult` the `trader.open_position` return,
`none` when the trader returns `None` (AutoTrading disabled or error),
otherwise `some retcode`. -/
structure TradeEnv where
  hasStrategy : Bool
  signalResult : Option (String × Signal)
  openCount : OrderType → ℕ
  positionSize : ℚ
  riskCheck : ℚ → Bool × String
  openResult : Option ℤ

/-- Embeds `MultiSymbolRobot.trade_symbol` (multi_symbol_robot.py lines
97-207) as the list of trader calls it emits, in order.  On BUY: if no BUY
position is open, size and risk-check the trade, returning early (no calls)
when rejected; otherwise invoke `open_position`, and return early when it
yields `None`; then, also when a BUY already existed, close SELL positions
when any are open.  SELL is symmetric.  NONE, a missing strategy, or a
raising strategy emit nothing. -/
def trade_symbol (env : TradeEnv) (symbol : String) : List TraderCall :=
  if ¬ env.hasStrategy then []
  else
    match env.signalResult with
    | none => []
    | some (_, sig) =>
      match sig with
      | Signal.BUY =>
        if env.openCount OrderType.buy = 0 then
          let position_size := env.positionSize
          if ¬ (env.riskCheck position_size).1 then []
          else
            match env.openResult with
            | none => [TraderCall.openPos symbol OrderType.buy position_size]
            | some _ =>
              TraderCall.openPos symbol OrderType.buy position_size ::
                (if 0 < env.openCount OrderType.sell then
                  [TraderCall.closePos symbol OrderType.sell] else [])
        else
          if 0 < env.openCount OrderType.sell then
            [TraderCall.closePos symbol OrderType.sell] else []
      | Signal.SELL =>
        if env.openCount OrderType.sell = 0 then
          let position_size := env.positionSize
          if ¬ (env.riskCheck position_size).1 then []
          else
            match env.openResult with
            | none => [TraderCall.openPos symbol OrderType.sell position_size]
            | some _ =>
              TraderCall.openPos symbol OrderType.sell position_size ::
                (if 0 < env.openCount OrderType.buy then
                  [TraderCall.closePos symbol OrderType.buy] else [])
        else
          if 0 < env.openCount OrderType.buy then
            [TraderCall.closePos symbol OrderType.buy] else []
      | Signal.NONE => []

/-- The signal that opens a position in direction `d`. -/
def dirSignal : OrderType → Signal
  | OrderType.buy => Signal.BUY
  | OrderType.sell => Signal.SELL

/-- The opposite trade direction. -/
def oppositeDir : OrderType → OrderType
  | OrderType.buy => OrderType.sell
  | OrderType.sell => OrderType.buy

/-- Number of `open_position` calls in direction `d`. -/
def openCallCount (calls : List TraderCall) (d : OrderType) : ℕ :=
  (calls.filter (fun c =>
    match c with
    | TraderCall.openPos _ o _ => decide (o = d)
    | TraderCall.closePos _ _ => false)).length

/-- Number of `open_position` calls of either direction. -/
def totalOpenCallCount (calls : List TraderCall) : ℕ :=
  (calls.filter (fun c =>
    match c with
    | TraderCall.openPos _ _ _ => true
    | TraderCall.closePos _ _ => false)).length

/-- Number of `close_positions` calls in direction `d`. -/
def closeCallCount (calls : List TraderCall) (d : OrderType) : ℕ :=
  (calls.filter (fun c =>
    match c with
    | TraderCall.openPos _ _ _ => false
    | TraderCall.closePos _ o => decide (o = d))).length

/-! Concrete terminal states used as evaluation inputs by the witnesses and
counterexamples below. -/

/-- The default risk configuration: 2% per symbol, 5% total. -/
def defaultRisk : RiskParams where
  risk_per_symbol := 0.02
  max_total_risk := 0.05

/-- A terminal state in which every query fails. -/
def emptyEnv : MarketEnv where
  accountInfo := none
  selectOk := fun _ => false
  symbolInfo := fun _ => none
  tick := fun _ => none
  rates := fun _ => none
  positions := some []

/-- Metadata of a five-digit broker symbol. -/
def sampleInfo : SymbolInfo where
  digits := 5
  trade_tick_size := 1 / 100000
  trade_tick_value := 1
  trade_contract_size := 100000
  volume_min := 1 / 100
  volume_max := 100
  volume_step := 1 / 100

/-- A two-bar price series. -/
def sampleBars : List Bar :=
  [{ high := 11 / 10, low := 9 / 10, close := 1 },
   { high := 12 / 10, low := 1, close := 11 / 10 }]

/-- A healthy terminal state: every query answers. -/
def sampleEnv : MarketEnv where
  accountInfo := some { balance := 10000, equity := 10000 }
  selectOk := fun _ => true
  symbolInfo := fun _ => some sampleInfo
  tick := fun _ => some { bid := 11 / 10, ask := 11 / 10 }
  rates := fun _ => some sampleBars
  positions := some []

/-- The healthy terminal state with a strictly negative account balance. -/
def negBalEnv : MarketEnv :=
  { sampleEnv with accountInfo := some { balance := -100, equity := -100 } }

/-- Orchestrator collaborator responses: BUY signal, no open BUY, one open
SELL, risk check passing, and `open_position` returning `None`. -/
def openNoneTradeEnv : TradeEnv where
  hasStrategy := true
  signalResult := some ("EURUSD", Signal.BUY)
  openCount := fun d =>
    match d with
    | OrderType.buy => 0
    | OrderType.sell => 1
  positionSize := 1 / 10
  riskCheck := fun _ => (true, "Risk check passed")
  openResult := none

end MT5Trading

namespace MT5Trading

/-- C1 counterexample: with four non-raising constituents {BUY,BUY,SELL,SELL}
the code returns BUY, while the claim's threshold ceil((n+1)/2) = 3 exceeds
both counts, so the claim as stated forces NONE.  The claimed threshold
ceil((n+1)/2) is written here as (n+2)/2 in truncated natural division. -/
theorem combined_majority_even_cex :
    combinedSignal false [some Signal.BUY, some Signal.BUY,
        some Signal.SELL, some Signal.SELL] = Signal.BUY ∧
    sigCount Signal.BUY [some Signal.BUY, some Signal.BUY,
        some Signal.SELL, some Signal.SELL] <
      (nResults [some Signal.BUY, some Signal.BUY,
        some Signal.SELL, some Signal.SELL] + 2) / 2 ∧
    sigCount Signal.SELL [some Signal.BUY, some Signal.BUY,
        some Signal.SELL, some Signal.SELL] <
      (nResults [some Signal.BUY, some Signal.BUY,
        some Signal.SELL, some Signal.SELL] + 2) / 2 := by
  decide

/-- C1 (amended): in majority mode, with n ≥ 1 the number of non-raising
constituents, the threshold is floor((n+1)/2) = ceil(n/2) (not ceil((n+1)/2)):
the result is BUY iff buy_count reaches the threshold; SELL iff sell_count
reaches it and buy_count does not (BUY is checked first, which matters only
for even n); NONE otherwise.  In particular for n = 3 the threshold is 2,
{BUY,BUY,SELL} yields BUY and {BUY,SELL,NONE} yields NONE. -/
theorem combined_majority_characterization (outcomes : List (Option Signal))
    (h : nResults outcomes ≠ 0) :
    ((combinedSignal false outcomes = Signal.BUY ↔
        (nResults outcomes + 1) / 2 ≤ sigCount Signal.BUY outcomes) ∧
      (combinedSignal false outcomes = Signal.SELL ↔
        ((nResults outcomes + 1) / 2 ≤ sigCount Signal.SELL outcomes ∧
          sigCount Signal.BUY outcomes < (nResults outcomes + 1) / 2)) ∧
      (combinedSignal false outcomes = Signal.NONE ↔
        (sigCount Signal.BUY outcomes < (nResults outcomes + 1) / 2 ∧
          sigCount Signal.SELL outcomes < (nResults outcomes + 1) / 2))) ∧
    combinedSignal false [some Signal.BUY, some Signal.BUY, some Signal.SELL] =
      Signal.BUY ∧
    combinedSignal false [some Signal.BUY, some Signal.SELL, some Signal.NONE] =
      Signal.NONE := by
  refine ⟨?_, by decide, by decide⟩
  unfold combinedSignal nResults sigCount at *
  rw [if_neg h]
  simp only [Bool.false_eq_true, if_false]
  split_ifs with hb hs <;>
    refine ⟨?_, ?_, ?_⟩ <;> simp_all

/-- Witness for `combined_majority_characterization` at the three-constituent
input {BUY,BUY,SELL}. -/
theorem combined_majority_characterization_witness :
    nResults [some Signal.BUY, some Signal.BUY, some Signal.SELL] ≠ 0 ∧
    (((combinedSignal false [some Signal.BUY, some Signal.BUY, some Signal.SELL] = Signal.BUY ↔
        (nResults [some Signal.BUY, some Signal.BUY, some Signal.SELL] + 1) / 2 ≤
          sigCount Signal.BUY [some Signal.BUY, some Signal.BUY, some Signal.SELL]) ∧
      (combinedSignal false [some Signal.BUY, some Signal.BUY, some Signal.SELL] = Signal.SELL ↔
        ((nResults [some Signal.BUY, some Signal.BUY, some Signal.SELL] + 1) / 2 ≤
            sigCount Signal.SELL [some Signal.BUY, some Signal.BUY, some Signal.SELL] ∧
          sigCount Signal.BUY [some Signal.BUY, some Signal.BUY, some Signal.SELL] <
            (nResults [some Signal.BUY, some Signal.BUY, some Signal.SELL] + 1) / 2)) ∧
      (combinedSignal false [some Signal.BUY, some Signal.BUY, some Signal.SELL] = Signal.NONE ↔
        (sigCount Signal.BUY [some Signal.BUY, some Signal.BUY, some Signal.SELL] <
            (nResults [some Signal.BUY, some Signal.BUY, some Signal.SELL] + 1) / 2 ∧
          sigCount Signal.SELL [some Signal.BUY, some Signal.BUY, some Signal.SELL] <
            (nResults [some Signal.BUY, some Signal.BUY, some Signal.SELL] + 1) / 2))) ∧
    combinedSignal false [some Signal.BUY, some Signal.BUY, some Signal.SELL] =
      Signal.BUY ∧
    combinedSignal false [some Signal.BUY, some Signal.SELL, some Signal.NONE] =
      Signal.NONE) :=
  ⟨by decide, combined_majority_characterization
    [some Signal.BUY, some Signal.BUY, some Signal.SELL] (by decide)⟩

/-- On the fully-available branch, `calculate_position_size` is the
risk-derived raw size rounded to the nearest lot step and clamped. -/
theorem calculate_position_size_eq (env : MarketEnv) (rm : RiskParams)
    (symbol : String) (slPips : ℚ) (ra : Option ℚ) (vm : ℚ) (info : SymbolInfo)
    (hsel : env.selectOk symbol = true)
    (hinfo : env.symbolInfo symbol = some info)
    (htick : env.tick symbol ≠ none)
    (hpd : pip_price_diff info slPips ≠ 0)
    (htv : info.trade_tick_value ≠ 0)
    (hstep : info.volume_step ≠ 0)
    (hvm : vm ≠ 0) :
    calculate_position_size env rm symbol slPips ra vm =
      max info.volume_min
        (min
          ((pythonRound (risk_amount_of env rm ra / vm /
              (pip_price_diff info slPips * info.trade_tick_value /
                info.trade_tick_size) / info.volume_step) : ℚ) *
            info.volume_step)
          info.volume_max) := by
  obtain ⟨tk, htk⟩ : ∃ tk, env.tick symbol = some tk := by
    cases h : env.tick symbol with
    | none => exact absurd h htick
    | some tk => exact ⟨tk, rfl⟩
  have hts : info.trade_tick_size ≠ 0 := by
    intro h0
    apply hpd
    unfold pip_price_diff
    split_ifs <;> simp [h0]
  have hden : pip_price_diff info slPips * info.trade_tick_value /
      info.trade_tick_size ≠ 0 :=
    div_ne_zero (mul_ne_zero hpd htv) hts
  simp only [calculate_position_size, hsel, hinfo, htk, not_true_eq_false,
    if_false, if_neg hvm, if_neg hpd, if_neg hden, if_neg hstep]

/-- C3: a zero account balance always rejects the trade with the verbatim
message, for every symbol, proposed size and stop loss. -/
theorem check_risk_limits_zero_balance (env : MarketEnv) (rm : RiskParams)
    (symbol : String) (proposed slPips : ℚ)
    (h : get_account_balance env = 0) :
    check_risk_limits env rm symbol proposed slPips =
      (false, "Account balance is zero") := by
  simp [check_risk_limits, h]

/-- Witness for `check_risk_limits_zero_balance`: the failing-account state
has balance 0 and the check rejects with the verbatim message. -/
theorem check_risk_limits_zero_balance_witness :
    get_account_balance emptyEnv = 0 ∧
    check_risk_limits emptyEnv defaultRisk "EURUSD" (1 / 10) 50 =
      (false, "Account balance is zero") :=
  ⟨rfl, check_risk_limits_zero_balance emptyEnv defaultRisk "EURUSD" (1 / 10) 50 rfl⟩

/-- C4: `calculate_position_size` returns 0.0 on each missing-market-data
branch (symbol not selectable, symbol info unavailable, tick unavailable,
zero pip-converted price difference); when all data is present and the
broker metadata is nondegenerate (nonzero tick value and lot step, nonzero
volatility multiplier — zero values raise `ZeroDivisionError` in the source
and also yield 0.0), the result is the raw risk-derived size rounded to the
nearest multiple of the lot step and clamped into [volume_min, volume_max]. -/
theorem calculate_position_size_spec (env : MarketEnv) (rm : RiskParams)
    (symbol : String) (slPips : ℚ) (ra : Option ℚ) (vm : ℚ) :
    (env.selectOk symbol = false →
      calculate_position_size env rm symbol slPips ra vm = 0) ∧
    (env.symbolInfo symbol = none →
      calculate_position_size env rm symbol slPips ra vm = 0) ∧
    (env.tick symbol = none →
      calculate_position_size env rm symbol slPips ra vm = 0) ∧
    (∀ info, env.symbolInfo symbol = some info → pip_price_diff info slPips = 0 →
      calculate_position_size env rm symbol slPips ra vm = 0) ∧
    (∀ info, env.selectOk symbol = true → env.symbolInfo symbol = some info →
      env.tick symbol ≠ none → pip_price_diff info slPips ≠ 0 →
      info.trade_tick_value ≠ 0 → info.volume_step ≠ 0 → vm ≠ 0 →
      calculate_position_size env rm symbol slPips ra vm =
        max info.volume_min
          (min
            ((pythonRound (risk_amount_of env rm ra / vm /
                (pip_price_diff info slPips * info.trade_tick_value /
                  info.trade_tick_size) / info.volume_step) : ℚ) *
              info.volume_step)
            info.volume_max)) := by
  refine ⟨?_, ?_, ?_, ?_, ?_⟩
  · intro h
    simp [calculate_position_size, h]
  · intro h
    unfold calculate_position_size
    rw [h]
    split_ifs <;> rfl
  · intro h
    unfold calculate_position_size
    rw [h]
    split_ifs <;> cases henv : env.symbolInfo symbol <;> simp [henv]
  · intro info hinfo hpd
    unfold calculate_position_size
    rw [hinfo]
    split_ifs <;>
      cases htk : env.tick symbol <;>
        simp [htk, hpd]
  · intro info hsel hinfo htick hpd htv hstep hvm
    exact calculate_position_size_eq env rm symbol slPips ra vm info hsel hinfo
      htick hpd htv hstep hvm

/-- Witness for `calculate_position_size_spec`: on the healthy terminal
state the last conjunct's premises all hold and the returned size is the
rounded-and-clamped value (here 2/5 lots). -/
theorem calculate_position_size_spec_witness :
    sampleEnv.selectOk "EURUSD" = true ∧
    sampleEnv.symbolInfo "EURUSD" = some sampleInfo ∧
    calculate_position_size sampleEnv defaultRisk "EURUSD" 50 (some 200) 1 =
      max sampleInfo.volume_min
        (min
          ((pythonRound (risk_amount_of sampleEnv defaultRisk (some 200) / 1 /
              (pip_price_diff sampleInfo 50 * sampleInfo.trade_tick_value /
                sampleInfo.trade_tick_size) / sampleInfo.volume_step) : ℚ) *
            sampleInfo.volume_step)
          sampleInfo.volume_max) :=
  ⟨rfl, rfl,
    (calculate_position_size_spec sampleEnv defaultRisk "EURUSD" 50 (some 200) 1).2.2.2.2
      sampleInfo rfl rfl (by simp [sampleEnv])
      (by norm_num [pip_price_diff, sampleInfo]) (by norm_num [sampleInfo])
      (by norm_num [sampleInfo]) (by norm_num)⟩

/-- C8: with a strictly negative balance, available symbol metadata and tick,
a nonzero tick size, and nonnegative configured limits, `check_risk_limits`
allows every proposed position size: the zero-balance guard tests equality
only, and both risk percentages are computed as 0 for a nonpositive
balance. -/
theorem check_risk_limits_negative_balance (env : MarketEnv) (rm : RiskParams)
    (symbol : String) (proposed slPips : ℚ) (info : SymbolInfo)
    (hb : get_account_balance env < 0)
    (hinfo : env.symbolInfo symbol = some info)
    (htick : env.tick symbol ≠ none)
    (hts : info.trade_tick_size ≠ 0)
    (hr : 0 ≤ rm.risk_per_symbol)
    (hm : 0 ≤ rm.max_total_risk) :
    (check_risk_limits env rm symbol proposed slPips).1 = true := by
  obtain ⟨tk, htk⟩ : ∃ tk, env.tick symbol = some tk := by
    cases h : env.tick symbol with
    | none => exact absurd h htick
    | some tk => exact ⟨tk, rfl⟩
  have hbne : get_account_balance env ≠ 0 := ne_of_lt hb
  have hnpos : ¬ (0 < get_account_balance env) := not_lt.mpr hb.le
  have hr100 : ¬ (rm.risk_per_symbol * 100 < 0) :=
    not_lt.mpr (mul_nonneg hr (by norm_num))
  have hm100 : ¬ (rm.max_total_risk * 100 < 0 + 0) := by
    rw [add_zero]
    exact not_lt.mpr (mul_nonneg hm (by norm_num))
  simp only [check_risk_limits, hinfo, htk, if_neg hbne, if_neg hts,
    if_neg hnpos, if_neg hr100, if_neg hm100]

/-- Witness for `check_risk_limits_negative_balance` on the negative-balance
terminal state. -/
theorem check_risk_limits_negative_balance_witness :
    get_account_balance negBalEnv < 0 ∧
    (check_risk_limits negBalEnv defaultRisk "EURUSD" (1 / 10) 50).1 = true :=
  ⟨by norm_num [get_account_balance, negBalEnv],
    check_risk_limits_negative_balance negBalEnv defaultRisk "EURUSD" (1 / 10) 50
      sampleInfo (by norm_num [get_account_balance, negBalEnv]) rfl
      (by simp [negBalEnv, sampleEnv]) (by norm_num [sampleInfo])
      (by norm_num [defaultRisk]) (by norm_num [defaultRisk])⟩

/-- C9: whenever symbol, metadata and tick are available, the pip-converted
price difference is nonzero, and the metadata and volatility multiplier are
nondegenerate, the returned size is at least the broker minimum volume: the
clamp raises even a raw size that rounds to zero lots up to volume_min. -/
theorem position_size_at_least_min (env : MarketEnv) (rm : RiskParams)
    (symbol : String) (slPips : ℚ) (ra : Option ℚ) (vm : ℚ) (info : SymbolInfo)
    (hsel : env.selectOk symbol = true)
    (hinfo : env.symbolInfo symbol = some info)
    (htick : env.tick symbol ≠ none)
    (hpd : pip_price_diff info slPips ≠ 0)
    (htv : info.trade_tick_value ≠ 0)
    (hstep : info.volume_step ≠ 0)
    (hvm : vm ≠ 0) :
    info.volume_min ≤ calculate_position_size env rm symbol slPips ra vm := by
  rw [calculate_position_size_eq env rm symbol slPips ra vm info hsel hinfo
    htick hpd htv hstep hvm]
  exact le_max_left _ _

/-- Witness for `position_size_at_least_min`: a tiny risk budget (1 cent)
still yields at least the broker minimum volume. -/
theorem position_size_at_least_min_witness :
    pip_price_diff sampleInfo 50 ≠ 0 ∧
    sampleInfo.volume_min ≤
      calculate_position_size sampleEnv defaultRisk "EURUSD" 50 (some (1 / 100)) 1 :=
  ⟨by norm_num [pip_price_diff, sampleInfo],
    position_size_at_least_min sampleEnv defaultRisk "EURUSD" 50 (some (1 / 100)) 1
      sampleInfo rfl rfl (by simp [sampleEnv])
      (by norm_num [pip_price_diff, sampleInfo]) (by norm_num [sampleInfo])
      (by norm_num [sampleInfo]) (by norm_num)⟩

/-- C10: a BUY signal with no open BUY position whose risk check rejects the
computed size makes `trade_symbol` return with no trader calls at all: no
order is opened and the existing SELL positions are not closed either. -/
theorem trade_symbol_risk_rejected (env : TradeEnv) (s s' : String)
    (hstrat : env.hasStrategy = true)
    (hsig : env.signalResult = some (s', Signal.BUY))
    (hbuy : env.openCount OrderType.buy = 0)
    (hrisk : (env.riskCheck env.positionSize).1 = false) :
    trade_symbol env s = [] := by
  simp [trade_symbol, hstrat, hsig, hbuy, hrisk]

/-- Witness for `trade_symbol_risk_rejected`: a rejected risk check on a BUY
signal with an open SELL position emits nothing. -/
theorem trade_symbol_risk_rejected_witness :
    ({ openNoneTradeEnv with riskCheck := fun _ => (false, "Position risk exceeds per-symbol limit") :
        TradeEnv }.riskCheck openNoneTradeEnv.positionSize).1 = false ∧
    trade_symbol
      { openNoneTradeEnv with
        riskCheck := fun _ => (false, "Position risk exceeds per-symbol limit") } "EURUSD" = [] :=
  ⟨rfl,
    trade_symbol_risk_rejected
      { openNoneTradeEnv with
        riskCheck := fun _ => (false, "Position risk exceeds per-symbol limit") }
      "EURUSD" "EURUSD" rfl rfl rfl rfl⟩

/-- C5 counterexample: BUY signal, no open BUY, risk check passing, one open
SELL position — but `open_position` returns `None`, so `trade_symbol`
returns before the opposite-side close: zero close-SELL calls, where the
claim demands exactly one. -/
theorem trade_symbol_open_none_cex :
    (openNoneTradeEnv.riskCheck openNoneTradeEnv.positionSize).1 = true ∧
    openNoneTradeEnv.openCount OrderType.buy = 0 ∧
    0 < openNoneTradeEnv.openCount OrderType.sell ∧
    openCallCount (trade_symbol openNoneTradeEnv "EURUSD") OrderType.buy = 1 ∧
    closeCallCount (trade_symbol openNoneTradeEnv "EURUSD") OrderType.sell = 0 := by
  refine ⟨rfl, rfl, ?_, ?_, ?_⟩ <;> simp [openNoneTradeEnv, trade_symbol,
    openCallCount, closeCallCount]

/-- C5 (amended): on a signal in direction d with no open position in d and a
passing risk check, exactly one open call in d is made; the opposite-side
close (exactly one close call when an opposite position exists, none
otherwise) happens only when `open_position` returns a result — when it
returns `None` the method returns early and no close call is made.  With an
existing position in d, no open call is made and the opposite-side close
still occurs. -/
theorem trade_symbol_signal_actions (env : TradeEnv) (s s' : String)
    (d : OrderType)
    (hstrat : env.hasStrategy = true)
    (hsig : env.signalResult = some (s', dirSignal d)) :
    (env.openCount d = 0 → (env.riskCheck env.positionSize).1 = true →
      openCallCount (trade_symbol env s) d = 1 ∧
      totalOpenCallCount (trade_symbol env s) = 1 ∧
      (env.openResult ≠ none →
        closeCallCount (trade_symbol env s) (oppositeDir d) =
          (if 0 < env.openCount (oppositeDir d) then 1 else 0)) ∧
      (env.openResult = none →
        closeCallCount (trade_symbol env s) (oppositeDir d) = 0)) ∧
    (env.openCount d ≠ 0 →
      totalOpenCallCount (trade_symbol env s) = 0 ∧
      closeCallCount (trade_symbol env s) (oppositeDir d) =
        (if 0 < env.openCount (oppositeDir d) then 1 else 0)) := by
  cases d <;>
    simp only [dirSignal, oppositeDir] at hsig ⊢ <;>
    refine ⟨fun h0 hallow => ?_, fun hne => ?_⟩
  · cases hor : env.openResult with
    | none =>
      refine ⟨?_, ?_, fun hc => absurd rfl hc, fun _ => ?_⟩ <;>
        simp [trade_symbol, hstrat, hsig, h0, hallow, hor, openCallCount,
          totalOpenCallCount, closeCallCount]
    | some rc =>
      refine ⟨?_, ?_, fun _ => ?_, fun hc => absurd hc (by simp [hor])⟩ <;>
        by_cases hopp : 0 < env.openCount OrderType.sell <;>
          simp [trade_symbol, hstrat, hsig, h0, hallow, hor, hopp,
            openCallCount, totalOpenCallCount, closeCallCount]
  · by_cases hopp : 0 < env.openCount OrderType.sell <;>
      refine ⟨?_, ?_⟩ <;>
        simp [trade_symbol, hstrat, hsig, hne, hopp, openCallCount,
          totalOpenCallCount, closeCallCount]
  · cases hor : env.openResult with
    | none =>
      refine ⟨?_, ?_, fun hc => absurd rfl hc, fun _ => ?_⟩ <;>
        simp [trade_symbol, hstrat, hsig, h0, hallow, hor, openCallCount,
          totalOpenCallCount, closeCallCount]
    | some rc =>
      refine ⟨?_, ?_, fun _ => ?_, fun hc => absurd hc (by simp [hor])⟩ <;>
        by_cases hopp : 0 < env.openCount OrderType.buy <;>
          simp [trade_symbol, hstrat, hsig, h0, hallow, hor, hopp,
            openCallCount, totalOpenCallCount, closeCallCount]
  · by_cases hopp : 0 < env.openCount OrderType.buy <;>
      refine ⟨?_, ?_⟩ <;>
        simp [trade_symbol, hstrat, hsig, hne, hopp, openCallCount,
          totalOpenCallCount, closeCallCount]

/-- Every metrics dictionary carries the symbol it was computed for. -/
theorem calculate_volatility_metrics_symbol (stdAnn : List ℚ → ℚ) (ap lp : ℕ)
    (env : MarketEnv) (s : String) (m : VolMetrics)
    (h : calculate_volatility_metrics stdAnn ap lp env s = some m) :
    m.symbol = s := by
  unfold calculate_volatility_metrics at h
  split at h
  · exact Option.noConfusion h
  · split at h
    · exact Option.noConfusion h
    · split at h
      · exact Option.noConfusion h
      · split at h
        · exact Option.noConfusion h
        · have h' := Option.some.inj h
          subst h'
          rfl

/-- Inserting is a permutation with consing. -/
theorem insertByScore_perm (x : VolMetrics) (l : List VolMetrics) :
    List.Perm (insertByScore x l) (x :: l) := by
  induction l with
  | nil => exact List.Perm.refl _
  | cons y ys ih =>
    unfold insertByScore
    split_ifs
    · exact List.Perm.refl _
    · exact (List.Perm.cons y ih).trans (List.Perm.swap x y ys)

/-- The stable sort permutes its input. -/
theorem sortByScoreDesc_perm (l : List VolMetrics) :
    List.Perm (sortByScoreDesc l) l := by
  induction l with
  | nil => exact List.Perm.refl _
  | cons x xs ih =>
    exact (insertByScore_perm x (sortByScoreDesc xs)).trans (List.Perm.cons x ih)

/-- Inserting into a descending list keeps it descending. -/
theorem insertByScore_pairwise (x : VolMetrics) (l : List VolMetrics)
    (hl : l.Pairwise (fun a b => b.score ≤ a.score)) :
    (insertByScore x l).Pairwise (fun a b => b.score ≤ a.score) := by
  induction l with
  | nil => simp [insertByScore]
  | cons y ys ih =>
    rw [List.pairwise_cons] at hl
    obtain ⟨hy, hys⟩ := hl
    unfold insertByScore
    split_ifs with hxy
    · refine List.Pairwise.cons ?_ (List.Pairwise.cons hy hys)
      intro z hz
      rcases List.mem_cons.mp hz with rfl | hz'
      · exact hxy
      · exact (hy z hz').trans hxy
    · refine List.Pairwise.cons ?_ (ih hys)
      intro z hz
      rcases List.mem_cons.mp ((insertByScore_perm x ys).mem_iff.mp hz) with rfl | hz'
      · exact (not_le.mp hxy).le
      · exact hy z hz'

/-- The ranking is sorted descending by score. -/
theorem sortByScoreDesc_sorted (l : List VolMetrics) :
    (sortByScoreDesc l).Pairwise (fun a b => b.score ≤ a.score) := by
  induction l with
  | nil => simp [sortByScoreDesc]
  | cons x xs ih => exact insertByScore_pairwise x (sortByScoreDesc xs) ih

/-- Insertion of an element with a different score does not disturb the
fixed-score restriction. -/
theorem filter_insertByScore_ne (x : VolMetrics) (l : List VolMetrics) (c : ℚ)
    (hx : x.score ≠ c) :
    (insertByScore x l).filter (fun m => decide (m.score = c)) =
      l.filter (fun m => decide (m.score = c)) := by
  induction l with
  | nil => simp [insertByScore, hx]
  | cons y ys ih =>
    unfold insertByScore
    split_ifs with hxy
    · simp [List.filter_cons, hx]
    · simp [List.filter_cons, ih]

/-- Insertion of an element with score `c` into a sorted descending list
places it in front of all retained elements of score `c`. -/
theorem filter_insertByScore_eq (x : VolMetrics) (l : List VolMetrics) (c : ℚ)
    (hx : x.score = c)
    (hl : l.Pairwise (fun a b => b.score ≤ a.score)) :
    (insertByScore x l).filter (fun m => decide (m.score = c)) =
      x :: l.filter (fun m => decide (m.score = c)) := by
  induction l with
  | nil => simp [insertByScore, hx]
  | cons y ys ih =>
    rw [List.pairwise_cons] at hl
    obtain ⟨hy, hys⟩ := hl
    unfold insertByScore
    split_ifs with hxy
    · simp [List.filter_cons, hx]
    · have hyne : y.score ≠ c := fun h => hxy (le_of_eq (h.trans hx.symm))
      simp [List.filter_cons, hyne, ih hys]

/-- Stability of the descending sort: the elements of any fixed score appear
in the sorted output in their original relative order. -/
theorem sortByScoreDesc_stable (l : List VolMetrics) (c : ℚ) :
    (sortByScoreDesc l).filter (fun m => decide (m.score = c)) =
      l.filter (fun m => decide (m.score = c)) := by
  induction l with
  | nil => rfl
  | cons x xs ih =>
    unfold sortByScoreDesc
    by_cases hx : x.score = c
    · rw [filter_insertByScore_eq x _ c hx (sortByScoreDesc_sorted xs), ih]
      simp [List.filter_cons, hx]
    · rw [filter_insertByScore_ne x _ c hx, ih]
      simp [List.filter_cons, hx]

/-- The symbols of the collected metrics form a sublist of the input
symbols. -/
theorem map_symbol_filterMap_sublist (stdAnn : List ℚ → ℚ) (ap lp : ℕ)
    (env : MarketEnv) (symbols : List String) :
    ((symbols.filterMap (calculate_volatility_metrics stdAnn ap lp env)).map
      (fun m => m.symbol)).Sublist symbols := by
  induction symbols with
  | nil => simp
  | cons t ts ih =>
    cases h : calculate_volatility_metrics stdAnn ap lp env t with
    | none =>
      simp only [List.filterMap_cons, h]
      exact ih.cons t
    | some m =>
      have hsym := calculate_volatility_metrics_symbol stdAnn ap lp env t m h
      simp only [List.filterMap_cons, h, List.map_cons, hsym]
      exact ih.cons₂ t

/-- C6: a symbol that is not selectable, has no rate data, or has fewer than
`atr_period + lookback_period` bars gets no metrics dictionary (`None`) and
never appears in the volatility ranking of any symbol list — it is excluded,
not scored as zero. -/
theorem volatility_metrics_excluded (stdAnn : List ℚ → ℚ) (ap lp : ℕ)
    (env : MarketEnv) (s : String)
    (h : env.selectOk s = false ∨ env.rates s = none ∨
      ∃ rs, env.rates s = some rs ∧ (rs = [] ∨ rs.length < ap + lp)) :
    calculate_volatility_metrics stdAnn ap lp env s = none ∧
    ∀ symbols : List String,
      s ∉ (rank_symbols_by_volatility stdAnn ap lp env symbols).map
        (fun m => m.symbol) := by
  have hnone : calculate_volatility_metrics stdAnn ap lp env s = none := by
    unfold calculate_volatility_metrics
    rcases h with h | h | ⟨rs, hrs, hr⟩
    · simp [h]
    · by_cases hsel : env.selectOk s
      · simp only [hsel, not_true_eq_false, if_false, h]
      · simp [hsel]
    · by_cases hsel : env.selectOk s
      · simp only [hsel, not_true_eq_false, if_false, hrs]
        rcases hr with rfl | hlen
        · simp
        · split_ifs <;> simp_all
      · simp [hsel]
  refine ⟨hnone, fun symbols hmem => ?_⟩
  unfold rank_symbols_by_volatility at hmem
  rw [((sortByScoreDesc_perm _).map (fun m => m.symbol)).mem_iff] at hmem
  obtain ⟨m, hm, hms⟩ := List.mem_map.mp hmem
  obtain ⟨t, _, hmt⟩ := List.mem_filterMap.mp hm
  have hts : t = s := by
    rw [← calculate_volatility_metrics_symbol stdAnn ap lp env t m hmt, hms]
  rw [hts, hnone] at hmt
  exact Option.noConfusion hmt

/-- Witness for `volatility_metrics_excluded`: on the failing terminal state
the symbol is not selectable, so it gets no metrics and is in no ranking. -/
theorem volatility_metrics_excluded_witness :
    (emptyEnv.selectOk "EURUSD" = false ∨ emptyEnv.rates "EURUSD" = none ∨
      ∃ rs, emptyEnv.rates "EURUSD" = some rs ∧ (rs = [] ∨ rs.length < 14 + 20)) ∧
    (calculate_volatility_metrics (fun _ => 0) 14 20 emptyEnv "EURUSD" = none ∧
      ∀ symbols : List String,
        "EURUSD" ∉ (rank_symbols_by_volatility (fun _ => 0) 14 20 emptyEnv
          symbols).map (fun m => m.symbol)) :=
  ⟨Or.inl rfl,
    volatility_metrics_excluded (fun _ => 0) 14 20 emptyEnv "EURUSD" (Or.inl rfl)⟩

/-- C7: the selection is a prefix of the min-score-filtered descending
ranking, has length at most `max_symbols`, has no duplicates when the input
symbols are distinct, and the ranking is stable: the entries of any fixed
score keep their relative input order (and the ranking is sorted descending
by score). -/
theorem select_top_structure (stdAnn : List ℚ → ℚ) (ap lp : ℕ)
    (env : MarketEnv) (symbols : List String) (maxN : ℕ) (minT : ℚ)
    (hnd : symbols.Nodup) :
    (rank_symbols_by_volatility stdAnn ap lp env symbols).Pairwise
      (fun a b => b.score ≤ a.score) ∧
    select_top_volatile_symbols stdAnn ap lp env symbols maxN minT <+:
      ((rank_symbols_by_volatility stdAnn ap lp env symbols).filter
        (fun r => decide (minT ≤ r.score))).map (fun m => m.symbol) ∧
    (select_top_volatile_symbols stdAnn ap lp env symbols maxN minT).length ≤
      maxN ∧
    (select_top_volatile_symbols stdAnn ap lp env symbols maxN minT).Nodup ∧
    ∀ c : ℚ,
      (rank_symbols_by_volatility stdAnn ap lp env symbols).filter
        (fun m => decide (m.score = c)) =
      (symbols.filterMap (calculate_volatility_metrics stdAnn ap lp env)).filter
        (fun m => decide (m.score = c)) := by
  refine ⟨sortByScoreDesc_sorted _, ?_, ?_, ?_, ?_⟩
  · unfold select_top_volatile_symbols
    exact List.take_prefix _ _
  · unfold select_top_volatile_symbols
    rw [List.length_take]
    exact min_le_left _ _
  · have h1 : ((symbols.filterMap
        (calculate_volatility_metrics stdAnn ap lp env)).map
        (fun m => m.symbol)).Nodup :=
      (map_symbol_filterMap_sublist stdAnn ap lp env symbols).nodup hnd
    have h2 : ((rank_symbols_by_volatility stdAnn ap lp env symbols).map
        (fun m => m.symbol)).Nodup :=
      (((sortByScoreDesc_perm _).map (fun m => m.symbol)).nodup_iff).mpr h1
    have h3 : (((rank_symbols_by_volatility stdAnn ap lp env symbols).filter
        (fun r => decide (minT ≤ r.score))).map (fun m => m.symbol)).Nodup :=
      ((List.filter_sublist
        (rank_symbols_by_volatility stdAnn ap lp env symbols)).map
        (fun m : VolMetrics => m.symbol)).nodup h2
    unfold select_top_volatile_symbols
    exact (List.take_sublist _ _).nodup h3
  · intro c
    unfold rank_symbols_by_volatility
    exact sortByScoreDesc_stable _ c

/-- Witness for `select_top_structure` on a healthy two-symbol candidate
list with one-period ATR and lookback. -/
theorem select_top_structure_witness :
    (["EURUSD", "XAUUSD"] : List String).Nodup ∧
    ((rank_symbols_by_volatility (fun _ => 0) 1 1 sampleEnv
        ["EURUSD", "XAUUSD"]).Pairwise (fun a b => b.score ≤ a.score) ∧
      select_top_volatile_symbols (fun _ => 0) 1 1 sampleEnv
        ["EURUSD", "XAUUSD"] 3 0 <+:
        ((rank_symbols_by_volatility (fun _ => 0) 1 1 sampleEnv
          ["EURUSD", "XAUUSD"]).filter
          (fun r => decide ((0 : ℚ) ≤ r.score))).map (fun m => m.symbol) ∧
      (select_top_volatile_symbols (fun _ => 0) 1 1 sampleEnv
        ["EURUSD", "XAUUSD"] 3 0).length ≤ 3 ∧
      (select_top_volatile_symbols (fun _ => 0) 1 1 sampleEnv
        ["EURUSD", "XAUUSD"] 3 0).Nodup ∧
      ∀ c : ℚ,
        (rank_symbols_by_volatility (fun _ => 0) 1 1 sampleEnv
          ["EURUSD", "XAUUSD"]).filter (fun m => decide (m.score = c)) =
        (["EURUSD", "XAUUSD"].filterMap
          (calculate_volatility_metrics (fun _ => 0) 1 1 sampleEnv)).filter
          (fun m => decide (m.score = c))) :=
  ⟨by decide,
    select_top_structure (fun _ => 0) 1 1 sampleEnv ["EURUSD", "XAUUSD"] 3 0
      (by decide)⟩

/-- C2 counterexample: one candidate whose data is unavailable — the
selection completes, selects nothing, and `select_volatile_symbols` returns
the empty list instead of falling back to the original candidate list
truncated to `max_symbols` (which would be the one candidate). -/
theorem select_fallback_cex :
    select_top_volatile_symbols (fun _ => 0) 14 20 emptyEnv ["EURUSD"] 3
      (1 / 2) = [] ∧
    select_volatile_symbols (fun _ => 0) 14 20 (some emptyEnv) (1 / 2)
      ["EURUSD"] 3 = [] ∧
    (["EURUSD"] : List String).take 3 = ["EURUSD"] :=
  ⟨rfl, rfl, rfl⟩

/-- C2 (amended): the fallback to `candidates[:max_symbols]` happens exactly
when the analyzer construction raises (the `except` arm); when the selection
completes but selects no symbol — nothing passes the min-score filter — the
empty list is returned with no fallback. -/
theorem select_fallback_behavior (stdAnn : List ℚ → ℚ) (ap lp : ℕ)
    (env : MarketEnv) (minT : ℚ) (candidates : List String) (maxN : ℕ) :
    select_volatile_symbols stdAnn ap lp none minT candidates maxN =
      candidates.take maxN ∧
    ((rank_symbols_by_volatility stdAnn ap lp env candidates).filter
        (fun r => decide (minT ≤ r.score)) = [] →
      select_volatile_symbols stdAnn ap lp (some env) minT candidates maxN =
        []) := by
  refine ⟨rfl, fun h => ?_⟩
  simp [select_volatile_symbols, select_top_volatile_symbols, h]

/-- Witness for `select_fallback_behavior`: with a raising analyzer the two
candidates come back verbatim; with a working analyzer that ranks nothing,
the selection is empty. -/
theorem select_fallback_behavior_witness :
    select_volatile_symbols (fun _ => 0) 14 20 none (1 / 2)
      ["EURUSD", "XAUUSD"] 3 = (["EURUSD", "XAUUSD"] : List String).take 3 ∧
    select_volatile_symbols (fun _ => 0) 14 20 (some emptyEnv) (1 / 2)
      ["EURUSD", "XAUUSD"] 3 = [] :=
  ⟨(select_fallback_behavior (fun _ => 0) 14 20 emptyEnv (1 / 2)
      ["EURUSD", "XAUUSD"] 3).1,
    (select_fallback_behavior (fun _ => 0) 14 20 emptyEnv (1 / 2)
      ["EURUSD", "XAUUSD"] 3).2 rfl⟩

/-- Witness for `trade_symbol_signal_actions`: the counterexample environment
with `open_position` answering retcode 10009 opens one BUY and closes the
one SELL. -/
theorem trade_symbol_signal_actions_witness :
    ({ openNoneTradeEnv with openResult := some 10009 : TradeEnv }.hasStrategy = true) ∧
    (({ openNoneTradeEnv with openResult := some 10009 : TradeEnv }.signalResult =
      some ("EURUSD", dirSignal OrderType.buy)) ∧
    (({ openNoneTradeEnv with openResult := some 10009 : TradeEnv }.openCount OrderType.buy = 0 →
      (({ openNoneTradeEnv with openResult := some 10009 : TradeEnv }.riskCheck
        { openNoneTradeEnv with openResult := some 10009 : TradeEnv }.positionSize).1 = true) →
      openCallCount (trade_symbol { openNoneTradeEnv with openResult := some 10009 } "EURUSD")
        OrderType.buy = 1 ∧
      totalOpenCallCount (trade_symbol { openNoneTradeEnv with openResult := some 10009 } "EURUSD") = 1 ∧
      (({ openNoneTradeEnv with openResult := some 10009 : TradeEnv }.openResult ≠ none) →
        closeCallCount (trade_symbol { openNoneTradeEnv with openResult := some 10009 } "EURUSD")
          (oppositeDir OrderType.buy) =
          (if 0 < { openNoneTradeEnv with openResult := some 10009 : TradeEnv }.openCount
              (oppositeDir OrderType.buy) then 1 else 0)) ∧
      (({ openNoneTradeEnv with openResult := some 10009 : TradeEnv }.openResult = none) →
        closeCallCount (trade_symbol { openNoneTradeEnv with openResult := some 10009 } "EURUSD")
          (oppositeDir OrderType.buy) = 0)) ∧
    ({ openNoneTradeEnv with openResult := some 10009 : TradeEnv }.openCount OrderType.buy ≠ 0 →
      totalOpenCallCount (trade_symbol { openNoneTradeEnv with openResult := some 10009 } "EURUSD") = 0 ∧
      closeCallCount (trade_symbol { openNoneTradeEnv with openResult := some 10009 } "EURUSD")
        (oppositeDir OrderType.buy) =
        (if 0 < { openNoneTradeEnv with openResult := some 10009 : TradeEnv }.openCount
            (oppositeDir OrderType.buy) then 1 else 0)))) :=
  ⟨rfl, rfl,
    trade_symbol_signal_actions { openNoneTradeEnv with openResult := some 10009 }
      "EURUSD" "EURUSD" OrderType.buy rfl rfl⟩

end MT5Trading
